import Mathlib

/-!
Verification of the CLIP-based aesthetic scoring engine of
`backend/app/services/aesthetic_scorer.py`.

The scorer's numeric pipeline (quick filter, weighted combination,
piecewise-linear calibration, negative penalty, clamping, rounding) is a
pure function of the six prompt-group similarities of one image.  We embed
it over `ℚ` (exact rationals standing for Python floats), abstracting a
concrete image as a similarity oracle `sim : List String → ℚ` that maps a
prompt group (the literal list of prompt strings from the source) to the
CLIP similarity of the image against that group — i.e. `sim` stands for
`fun prompts => _calculate_similarity(image_embedding, encode(prompts))`.

The cosine-similarity algorithm itself (`_calculate_similarity`) is
embedded separately over real Euclidean vectors, and the error /
lazy-singleton layer (`_encode_image` re-raising, `get_aesthetic_scorer`,
`calculate_aesthetic_score`) is embedded with `Except` and explicit
state passing.
-/

namespace AestheticScorer

/-- Quick filter prompts (`CLIPAestheticScorer.QUICK_PROMPTS`). -/
def QUICK_PROMPTS : List String :=
  ["a high quality professional photograph",
   "an aesthetically pleasing image with good composition"]

/-- Detailed evaluation prompts by dimension (`CLIPAestheticScorer.DETAILED_PROMPTS`). -/
def DETAILED_PROMPTS : List (String × List String) :=
  [("technical",
    ["sharp focus and excellent exposure",
     "professional color grading and contrast"]),
   ("composition",
    ["well-balanced composition with strong visual structure",
     "compelling framing following photographic principles"]),
   ("lighting",
    ["beautiful natural lighting with great atmosphere",
     "dramatic light creating visual interest"])]

/-- Category-specific prompts (`CLIPAestheticScorer.CATEGORY_PROMPTS`). -/
def CATEGORY_PROMPTS : List (String × List String) :=
  [("landscape",
    ["a stunning landscape photograph with dramatic scenery",
     "breathtaking natural vista with excellent depth"]),
   ("cityscape",
    ["an impressive urban photograph with compelling architecture",
     "striking city skyline with great composition"]),
   ("architecture",
    ["beautiful architectural photography with clean lines",
     "well-composed building photograph with strong geometry"]),
   ("nature",
    ["captivating nature photography with vibrant details",
     "beautiful natural scene with excellent clarity"]),
   ("sunset",
    ["breathtaking sunset photograph with stunning colors",
     "beautiful golden hour scene with dramatic sky"]),
   ("night",
    ["impressive night photography with excellent exposure",
     "stunning low-light photograph with great atmosphere"]),
   ("other",
    ["an interesting and well-executed photograph",
     "compelling photography with strong visual appeal"])]

/-- Negative prompts for contrastive evaluation (`CLIPAestheticScorer.NEGATIVE_PROMPTS`). -/
def NEGATIVE_PROMPTS : List String :=
  ["a poorly composed photograph with bad framing",
   "a blurry low-quality image with poor exposure"]

/-- Score weights for the final calculation (`CLIPAestheticScorer.WEIGHTS`). -/
def WEIGHTS : List (String × ℚ) :=
  [("universal", 20/100),
   ("technical", 25/100),
   ("composition", 25/100),
   ("lighting", 15/100),
   ("category", 15/100)]

/-- Dictionary access `WEIGHTS[k]` (total, with junk value 0 off the five keys,
which the source never accesses). -/
def weight (k : String) : ℚ := (WEIGHTS.lookup k).getD 0

/-- Quality threshold for detailed evaluation (`CLIPAestheticScorer.QUICK_THRESHOLD = 0.20`). -/
def QUICK_THRESHOLD : ℚ := 20/100

/-- Calibration breakpoint `min_sim = 0.16` (local constant in `evaluate_image`). -/
def min_sim : ℚ := 16/100

/-- Calibration breakpoint `avg_sim = 0.23`. -/
def avg_sim : ℚ := 23/100

/-- Calibration breakpoint `good_sim = 0.26`. -/
def good_sim : ℚ := 26/100

/-- Calibration breakpoint `excellent_sim = 0.30`. -/
def excellent_sim : ℚ := 30/100

/-- Python's `str.lower` restricted to ASCII, which is all the source's category
keys use: each A–Z character is shifted to its lowercase form. -/
def lowerChar (c : Char) : Char :=
  if ('A' ≤ c && c ≤ 'Z') then Char.ofNat (c.toNat + 32) else c

/-- ASCII model of `category.lower()`. -/
def pyLower (s : String) : String := String.mk (s.data.map lowerChar)

/-- Key selection in `evaluate_image`:
`category_key = category.lower() if category.lower() in self.CATEGORY_PROMPTS else "other"`. -/
def categoryKey (category : String) : String :=
  if (CATEGORY_PROMPTS.lookup (pyLower category)).isSome then pyLower category else "other"

/-- Three-branch piecewise-linear calibration of the weighted raw score
(`evaluate_image`, the `if weighted_raw_score < avg_sim ... elif ... else` block). -/
def calibrate (w : ℚ) : ℚ :=
  if w < avg_sim then ((w - min_sim) / (avg_sim - min_sim)) * 25 + 40
  else if w < good_sim then ((w - avg_sim) / (good_sim - avg_sim)) * 15 + 65
  else ((w - good_sim) / (excellent_sim - good_sim)) * 15 + 80

/-- Contrastive penalty (`if negative_score > 0.22: negative_penalty = (negative_score - 0.22) * 20
else: negative_penalty = 0`). -/
def negativePenalty (negative_score : ℚ) : ℚ :=
  if negative_score > 22/100 then (negative_score - 22/100) * 20 else 0

/-- Mapping tier recorded in the breakdown (`breakdown["mapping_tier"]`). -/
def mappingTier (w : ℚ) : String :=
  if w < avg_sim then "poor" else if w < good_sim then "good" else "excellent"

/-- Python's `round(x, 1)` modelled over ℚ as round-to-nearest at one decimal
(ties away from the Python float carry no weight here: every claim touching the
rounded value concerns exact tenths or interval bounds). -/
def round1 (q : ℚ) : ℚ := (round (q * 10) : ℤ) / 10

/-- Result of one `evaluate_image` call: the returned `aesthetic_score`,
`evaluation_method`, and the breakdown fields the claims refer to
(`none` marks a key absent from the breakdown dict on that path). -/
structure EvalResult where
  aesthetic_score : ℚ
  universal_raw : ℚ
  universal_scaled : Option ℚ
  weighted_raw : Option ℚ
  negative_pen : Option ℚ
  mapping_tier : Option String
  evaluation_method : String
deriving DecidableEq

/-- Quick-path score: `scaled_score = ((quick_score - 0.10) / (0.20 - 0.10)) * 20 + 20`
followed by `scaled_score = max(20, min(40, scaled_score))`. -/
def quickScaled (quick_score : ℚ) : ℚ :=
  max 20 (min 40 (((quick_score - 10/100) / (20/100 - 10/100)) * 20 + 20))

/-- The `weighted_raw_score` of `evaluate_image`: the five raw similarities of the
image combined with the `WEIGHTS` constants. -/
def weightedRaw (sim : List String → ℚ) (category : String) : ℚ :=
  sim QUICK_PROMPTS * weight "universal" +
  sim ((DETAILED_PROMPTS.lookup "technical").getD []) * weight "technical" +
  sim ((DETAILED_PROMPTS.lookup "composition").getD []) * weight "composition" +
  sim ((DETAILED_PROMPTS.lookup "lighting").getD []) * weight "lighting" +
  sim ((CATEGORY_PROMPTS.lookup (categoryKey category)).getD []) * weight "category"

/-- `CLIPAestheticScorer.evaluate_image`, as a function of the image's
similarity oracle `sim` (prompt group ↦ similarity) and the category string.
Mirrors the source line by line: quick filter, early exit with the
[0.10, 0.20] → [20, 40] remap clamped to [20, 40]; otherwise the five
detailed similarities, the weighted combination, the piecewise calibration,
the negative penalty, the clamp to [30, 98] and the final `round(·, 1)`. -/
def evaluate_image (sim : List String → ℚ) (category : String) : EvalResult :=
  let quick_score := sim QUICK_PROMPTS
  if quick_score < QUICK_THRESHOLD then
    let scaled := quickScaled quick_score
    { aesthetic_score := scaled
      universal_raw := quick_score
      universal_scaled := some scaled
      weighted_raw := none
      negative_pen := none
      mapping_tier := none
      evaluation_method := "CLIP-ViT-B/32-quick" }
  else
    let negative_score := sim NEGATIVE_PROMPTS
    let weighted_raw_score := weightedRaw sim category
    let base := calibrate weighted_raw_score
    let pen := negativePenalty negative_score
    let score := max 30 (min 98 (base - pen))
    { aesthetic_score := round1 score
      universal_raw := quick_score
      universal_scaled := none
      weighted_raw := some weighted_raw_score
      negative_pen := some pen
      mapping_tier := some (mappingTier weighted_raw_score)
      evaluation_method := "CLIP-ViT-B/32-detailed" }

/-- A concrete image oracle sitting exactly at the quick threshold: quick
similarity 0.20 (so stage 2 runs) and similarity 0 against every other prompt
group. -/
def simGate : List String → ℚ := fun ps => if ps = QUICK_PROMPTS then 20/100 else 0

/-- A concrete image oracle with similarity 0.19 against every prompt group,
which fails the quick filter. -/
def simWeak : List String → ℚ := fun _ => 19/100

/-! Error and lazy-singleton layer.  Python exceptions become `Except ScorerError`;
the `global _scorer_instance` cell becomes explicit state passing of an
`Option Scorer`. -/

/-- Failure taxonomy of the scorer (model-load failure in `__init__`,
`PIL`/decode failure re-raised by `_encode_image`, any other failure during
embedding or similarity computation). -/
inductive ScorerError
  | modelUnavailable (msg : String)
  | imageDecodeError (msg : String)
  | computationError (msg : String)
deriving DecidableEq

/-- A constructed scorer instance: given an image path and a category it either
fails (decode or computation error propagating out of `evaluate_image`) or
returns the evaluation result. -/
def Scorer : Type := String → String → Except ScorerError EvalResult

/-- Body of `CLIPAestheticScorer.evaluate_image` at the effect level: the result
of `_encode_image` (which re-raises any decode failure) is consumed with no
handler anywhere in the method, so a failure propagates unchanged to the caller
and a success runs the pure scoring pipeline. -/
def evaluate_image_run (encoded : Except ScorerError (List String → ℚ))
    (category : String) : Except ScorerError EvalResult :=
  match encoded with
  | .error e => .error e
  | .ok sim => .ok (evaluate_image sim category)

/-- `get_aesthetic_scorer`: `load` stands for `CLIPAestheticScorer()` (which
re-raises any load failure), `inst` for the current `_scorer_instance` cell.
Returns the call's outcome and the new cell contents. -/
def get_aesthetic_scorer (load : Except ScorerError Scorer) (inst : Option Scorer) :
    Except ScorerError Scorer × Option Scorer :=
  match inst with
  | some s => (.ok s, some s)
  | none =>
    match load with
    | .ok s => (.ok s, some s)
    | .error e => (.error e, none)

/-- Breakdown dict returned by `calculate_aesthetic_score`: either the real
breakdown of a successful evaluation or the `{"error": str(e)}` dict. -/
inductive Breakdown
  | result (r : EvalResult)
  | failure (e : ScorerError)
deriving DecidableEq

/-- `calculate_aesthetic_score`: wraps `get_aesthetic_scorer` plus
`scorer.evaluate_image` in `try/except`, catching every failure and returning
the default `(70.0, {"error": str(e)})` instead of re-raising. -/
def calculate_aesthetic_score (load : Except ScorerError Scorer) (inst : Option Scorer)
    (image_path : String) (category : String) : (ℚ × Breakdown) × Option Scorer :=
  match get_aesthetic_scorer load inst with
  | (.ok scorer, inst1) =>
    match scorer image_path category with
    | .ok result => ((result.aesthetic_score, .result result), inst1)
    | .error e => ((70, .failure e), inst1)
  | (.error e, inst1) => ((70, .failure e), inst1)

/-! `_calculate_similarity` over exact real Euclidean vectors (the float tensors
of the source).  A text embedding matrix is a list of rows. -/

/-- `x / x.norm(dim=-1, keepdim=True)`: L2 normalization of one vector. -/
noncomputable def l2normalize {n : ℕ} (v : EuclideanSpace ℝ (Fin n)) :
    EuclideanSpace ℝ (Fin n) :=
  ‖v‖⁻¹ • v

/-- `CLIPAestheticScorer._calculate_similarity`: L2-normalize the image
embedding and every text row, dot the normalized image vector with each
normalized row (`image_embedding @ text_embeddings.T`), and return the mean
over rows (`similarity.mean().item()`). -/
noncomputable def calculate_similarity {n : ℕ} (image_embedding : EuclideanSpace ℝ (Fin n))
    (text_embeddings : List (EuclideanSpace ℝ (Fin n))) : ℝ :=
  ((text_embeddings.map fun t =>
      (inner (l2normalize image_embedding) (l2normalize t) : ℝ)).sum) /
    (text_embeddings.length : ℝ)

end AestheticScorer

namespace AestheticScorer

/-! Helper equations and bounds shared by the claim theorems. -/

theorem evaluate_image_quick_eq (sim : List String → ℚ) (c : String)
    (h : sim QUICK_PROMPTS < QUICK_THRESHOLD) :
    evaluate_image sim c =
      { aesthetic_score := quickScaled (sim QUICK_PROMPTS)
        universal_raw := sim QUICK_PROMPTS
        universal_scaled := some (quickScaled (sim QUICK_PROMPTS))
        weighted_raw := none
        negative_pen := none
        mapping_tier := none
        evaluation_method := "CLIP-ViT-B/32-quick" } := by
  simp [evaluate_image, h]

theorem evaluate_image_detailed_eq (sim : List String → ℚ) (c : String)
    (h : ¬ sim QUICK_PROMPTS < QUICK_THRESHOLD) :
    evaluate_image sim c =
      { aesthetic_score := round1 (max 30 (min 98
          (calibrate (weightedRaw sim c) - negativePenalty (sim NEGATIVE_PROMPTS))))
        universal_raw := sim QUICK_PROMPTS
        universal_scaled := none
        weighted_raw := some (weightedRaw sim c)
        negative_pen := some (negativePenalty (sim NEGATIVE_PROMPTS))
        mapping_tier := some (mappingTier (weightedRaw sim c))
        evaluation_method := "CLIP-ViT-B/32-detailed" } := by
  simp [evaluate_image, h]

theorem quickScaled_mem (q : ℚ) : 20 ≤ quickScaled q ∧ quickScaled q ≤ 40 :=
  ⟨le_max_left _ _, max_le (by norm_num) (min_le_left _ _)⟩

theorem clamp30_mem (v : ℚ) : 30 ≤ max 30 (min 98 v) ∧ max 30 (min 98 v) ≤ 98 :=
  ⟨le_max_left _ _, max_le (by norm_num) (min_le_left _ _)⟩

theorem round1_bounds {a b : ℤ} {q : ℚ} (h1 : (a:ℚ) ≤ q) (h2 : q ≤ (b:ℚ)) :
    (a:ℚ) ≤ round1 q ∧ round1 q ≤ (b:ℚ) := by
  have hl : (10*a : ℤ) ≤ round (q*10) := by
    rw [round_eq, Int.le_floor]
    push_cast
    linarith
  have hu : round (q*10) ≤ 10*b := by
    rw [round_eq]
    have hx : (q*10 + 1/2 : ℚ) < ((10*b + 1 : ℤ) : ℚ) := by push_cast; linarith
    have := Int.floor_lt.mpr hx
    omega
  constructor
  · rw [round1, le_div_iff₀ (by norm_num : (0:ℚ) < 10)]
    have h3 : ((10*a : ℤ) : ℚ) ≤ ((round (q*10) : ℤ) : ℚ) := Int.cast_le.mpr hl
    push_cast at h3
    linarith
  · rw [round1, div_le_iff₀ (by norm_num : (0:ℚ) < 10)]
    have h4 : ((round (q*10) : ℤ) : ℚ) ≤ ((10*b : ℤ) : ℚ) := Int.cast_le.mpr hu
    push_cast at h4
    linarith

theorem evaluate_image_congr_category (sim : List String → ℚ) (c1 c2 : String)
    (h : categoryKey c1 = categoryKey c2) :
    evaluate_image sim c1 = evaluate_image sim c2 := by
  simp [evaluate_image, weightedRaw, h]

/-! The claim theorems. -/

/-- C1: for every image (similarity oracle) and category, the returned
aesthetic score is in [20, 98]; on the quick path it is in [20, 40] and on
the detailed path in [30, 98]. -/
theorem evaluate_image_score_range (sim : List String → ℚ) (c : String) :
    (20 ≤ (evaluate_image sim c).aesthetic_score ∧
      (evaluate_image sim c).aesthetic_score ≤ 98) ∧
    (sim QUICK_PROMPTS < QUICK_THRESHOLD →
      20 ≤ (evaluate_image sim c).aesthetic_score ∧
        (evaluate_image sim c).aesthetic_score ≤ 40) ∧
    (QUICK_THRESHOLD ≤ sim QUICK_PROMPTS →
      30 ≤ (evaluate_image sim c).aesthetic_score ∧
        (evaluate_image sim c).aesthetic_score ≤ 98) := by
  by_cases h : sim QUICK_PROMPTS < QUICK_THRESHOLD
  · rw [evaluate_image_quick_eq sim c h]
    have hq := quickScaled_mem (sim QUICK_PROMPTS)
    exact ⟨⟨hq.1, by linarith [hq.2]⟩, fun _ => hq,
      fun h2 => absurd h (not_lt.mpr h2)⟩
  · rw [evaluate_image_detailed_eq sim c h]
    have hv := clamp30_mem (calibrate (weightedRaw sim c) - negativePenalty (sim NEGATIVE_PROMPTS))
    have hr := round1_bounds (a := 30) (b := 98) (by exact_mod_cast hv.1) (by exact_mod_cast hv.2)
    have hr30 : (30:ℚ) ≤ round1 (max 30 (min 98 (calibrate (weightedRaw sim c) - negativePenalty (sim NEGATIVE_PROMPTS)))) := by exact_mod_cast hr.1
    have hr98 : round1 (max 30 (min 98 (calibrate (weightedRaw sim c) - negativePenalty (sim NEGATIVE_PROMPTS)))) ≤ 98 := by exact_mod_cast hr.2
    exact ⟨⟨by linarith, hr98⟩, fun h2 => absurd h2 h, fun _ => ⟨hr30, hr98⟩⟩

theorem evaluate_image_score_range_witness :
    20 ≤ (evaluate_image (fun _ => 19/100) "other").aesthetic_score ∧
      (evaluate_image (fun _ => 19/100) "other").aesthetic_score ≤ 40 :=
  (evaluate_image_score_range (fun _ => 19/100) "other").2.1 (by norm_num [QUICK_THRESHOLD])

/-- C3: quick path iff quick_score < 0.20; 0.20 itself routes to detailed;
on the quick path the score is the clamped linear remap of the quick score,
and quick_score = 0.15 gives exactly 30. -/
theorem quick_path_spec (sim : List String → ℚ) (c : String) :
    ((evaluate_image sim c).evaluation_method = "CLIP-ViT-B/32-quick" ↔
      sim QUICK_PROMPTS < QUICK_THRESHOLD) ∧
    (sim QUICK_PROMPTS = QUICK_THRESHOLD →
      (evaluate_image sim c).evaluation_method = "CLIP-ViT-B/32-detailed") ∧
    (sim QUICK_PROMPTS < QUICK_THRESHOLD →
      (evaluate_image sim c).aesthetic_score =
        max 20 (min 40 (((sim QUICK_PROMPTS - 10/100) / (20/100 - 10/100)) * 20 + 20))) ∧
    (sim QUICK_PROMPTS = 15/100 → (evaluate_image sim c).aesthetic_score = 30) := by
  by_cases h : sim QUICK_PROMPTS < QUICK_THRESHOLD
  · rw [evaluate_image_quick_eq sim c h]
    refine ⟨by simp [h], fun he => absurd (he ▸ h) (lt_irrefl _), fun _ => rfl, fun he => ?_⟩
    rw [he]
    norm_num [quickScaled]
  · rw [evaluate_image_detailed_eq sim c h]
    refine ⟨by simp [h], fun _ => rfl, fun h2 => absurd h2 h, fun he => ?_⟩
    exact absurd (he ▸ (by norm_num [QUICK_THRESHOLD] : (15:ℚ)/100 < 20/100)) h

theorem quick_path_spec_witness :
    (evaluate_image (fun _ => 15/100) "other").aesthetic_score = 30 :=
  (quick_path_spec (fun _ => 15/100) "other").2.2.2 rfl

/-- C4: the calibration is the three-branch piecewise-linear map with
breakpoints 0.16, 0.23, 0.26, 0.30; both branch formulas give exactly 65 at
0.23 and exactly 80 at 0.26 (continuity); 0.20 maps to 380/7 ≈ 54.3, tier poor. -/
theorem calibration_spec :
    min_sim = 16/100 ∧ avg_sim = 23/100 ∧ good_sim = 26/100 ∧ excellent_sim = 30/100 ∧
    (∀ w : ℚ, w < avg_sim →
      calibrate w = ((w - min_sim) / (avg_sim - min_sim)) * 25 + 40) ∧
    (∀ w : ℚ, avg_sim ≤ w → w < good_sim →
      calibrate w = ((w - avg_sim) / (good_sim - avg_sim)) * 15 + 65) ∧
    (∀ w : ℚ, good_sim ≤ w →
      calibrate w = ((w - good_sim) / (excellent_sim - good_sim)) * 15 + 80) ∧
    (((avg_sim - min_sim) / (avg_sim - min_sim)) * 25 + 40 = 65 ∧
      ((avg_sim - avg_sim) / (good_sim - avg_sim)) * 15 + 65 = 65 ∧
      calibrate avg_sim = 65) ∧
    (((good_sim - avg_sim) / (good_sim - avg_sim)) * 15 + 65 = 80 ∧
      ((good_sim - good_sim) / (excellent_sim - good_sim)) * 15 + 80 = 80 ∧
      calibrate good_sim = 80) ∧
    (calibrate (20/100) = ((20/100 - 16/100) / (23/100 - 16/100)) * 25 + 40 ∧
      calibrate (20/100) = 380/7 ∧ mappingTier (20/100) = "poor") := by
  refine ⟨rfl, rfl, rfl, rfl, fun w hw => ?_, fun w h1 h2 => ?_, fun w h1 => ?_, ?_, ?_, ?_⟩
  · rw [calibrate, if_pos hw]
  · rw [calibrate, if_neg (not_lt.mpr h1), if_pos h2]
  · rw [calibrate, if_neg (not_lt.mpr (le_trans (by norm_num [avg_sim, good_sim]) h1)),
      if_neg (not_lt.mpr h1)]
  · norm_num [calibrate, min_sim, avg_sim, good_sim, excellent_sim]
  · norm_num [calibrate, min_sim, avg_sim, good_sim, excellent_sim]
  · norm_num [calibrate, mappingTier, min_sim, avg_sim, good_sim, excellent_sim]

theorem calibration_spec_witness :
    calibrate (20/100) = ((20/100 - min_sim) / (avg_sim - min_sim)) * 25 + 40 :=
  calibration_spec.2.2.2.2.1 (20/100) (by norm_num [avg_sim])

/-- C5: the negative penalty is 0 for negative_score ≤ 0.22, exactly
(negative_score − 0.22) · 20 and strictly positive above 0.22, and it can only
lower the calibrated score, never raise it. -/
theorem negative_penalty_spec (n : ℚ) :
    (n ≤ 22/100 → negativePenalty n = 0) ∧
    (22/100 < n →
      negativePenalty n = (n - 22/100) * 20 ∧ 0 < negativePenalty n) ∧
    0 ≤ negativePenalty n ∧
    (∀ w : ℚ, calibrate w - negativePenalty n ≤ calibrate w) := by
  by_cases hn : n > 22/100
  · refine ⟨fun h => absurd hn (not_lt.mpr h), fun _ => ⟨by rw [negativePenalty, if_pos hn],
      by rw [negativePenalty, if_pos hn]; linarith⟩, ?_, ?_⟩
    · rw [negativePenalty, if_pos hn]; linarith
    · intro w
      rw [negativePenalty, if_pos hn]
      linarith
  · refine ⟨fun _ => by rw [negativePenalty, if_neg hn], fun h => absurd h hn, ?_, ?_⟩
    · rw [negativePenalty, if_neg hn]
    · intro w
      rw [negativePenalty, if_neg hn]
      linarith

theorem negative_penalty_spec_witness :
    negativePenalty (25/100) = (25/100 - 22/100) * 20 ∧ 0 < negativePenalty (25/100) :=
  (negative_penalty_spec (25/100)).2.1 (by norm_num)

/-- C6: any category whose lower-cased form is not a supported key is scored
with the "other" prompt group and the prompt-group access always succeeds; the
key is matched on the lower-cased category string. -/
theorem category_fallback_spec (sim : List String → ℚ) (c : String) :
    (CATEGORY_PROMPTS.lookup (categoryKey c)).isSome = true ∧
    (CATEGORY_PROMPTS.lookup (pyLower c) = none →
      categoryKey c = "other" ∧ evaluate_image sim c = evaluate_image sim "other") ∧
    categoryKey c =
      (if (CATEGORY_PROMPTS.lookup (pyLower c)).isSome then pyLower c else "other") := by
  refine ⟨?_, fun h => ?_, rfl⟩
  · by_cases hk : (CATEGORY_PROMPTS.lookup (pyLower c)).isSome
    · rw [categoryKey, if_pos hk]; exact hk
    · rw [categoryKey, if_neg hk]; decide
  · have hk : categoryKey c = "other" := by
      rw [categoryKey, if_neg (by simp [h])]
    exact ⟨hk, evaluate_image_congr_category sim c "other" (by rw [hk]; decide)⟩

theorem category_fallback_spec_witness :
    categoryKey "abstract" = "other" ∧
    evaluate_image (fun _ => 0) "abstract" = evaluate_image (fun _ => 0) "other" :=
  (category_fallback_spec (fun _ => 0) "abstract").2.1 (by decide)

/-- C8: the five weights are the fixed constants 0.20, 0.25, 0.25, 0.15, 0.15,
they sum to exactly 1, and on the detailed path the recorded weighted raw score
is exactly the weighted sum of the five raw similarities. -/
theorem weights_spec (sim : List String → ℚ) (c : String) :
    weight "universal" = 20/100 ∧ weight "technical" = 25/100 ∧
    weight "composition" = 25/100 ∧ weight "lighting" = 15/100 ∧
    weight "category" = 15/100 ∧
    weight "universal" + weight "technical" + weight "composition" +
      weight "lighting" + weight "category" = 1 ∧
    (QUICK_THRESHOLD ≤ sim QUICK_PROMPTS →
      (evaluate_image sim c).weighted_raw = some (
        sim QUICK_PROMPTS * weight "universal" +
        sim ((DETAILED_PROMPTS.lookup "technical").getD []) * weight "technical" +
        sim ((DETAILED_PROMPTS.lookup "composition").getD []) * weight "composition" +
        sim ((DETAILED_PROMPTS.lookup "lighting").getD []) * weight "lighting" +
        sim ((CATEGORY_PROMPTS.lookup (categoryKey c)).getD []) * weight "category")) := by
  refine ⟨rfl, rfl, rfl, rfl, rfl, by
    rw [show weight "universal" = 20/100 from rfl, show weight "technical" = 25/100 from rfl,
      show weight "composition" = 25/100 from rfl, show weight "lighting" = 15/100 from rfl,
      show weight "category" = 15/100 from rfl]
    norm_num, fun h => ?_⟩
  rw [evaluate_image_detailed_eq sim c (not_lt.mpr h)]
  rfl

theorem weights_spec_witness :
    (evaluate_image (fun _ => (20:ℚ)/100) "sunset").weighted_raw =
      some (20/100 * weight "universal" + 20/100 * weight "technical" +
        20/100 * weight "composition" + 20/100 * weight "lighting" +
        20/100 * weight "category") := by
  have h := (weights_spec (fun _ => (20:ℚ)/100) "sunset").2.2.2.2.2.2
    (by norm_num [QUICK_THRESHOLD])
  simpa using h

/-- C9: a failed lazy load of the shared scorer is re-raised and leaves the
global cell unset (so the next call retries the load); a successful load is
cached and every later call returns that same instance without consulting the
loader again. -/
theorem singleton_retry_spec (load load2 : Except ScorerError Scorer)
    (s s0 : Scorer) (e : ScorerError) :
    (load = .error e → get_aesthetic_scorer load none = (.error e, none)) ∧
    (load = .ok s → get_aesthetic_scorer load none = (.ok s, some s)) ∧
    get_aesthetic_scorer load2 (some s0) = (.ok s0, some s0) := by
  refine ⟨fun h => ?_, fun h => ?_, rfl⟩
  · rw [h]; rfl
  · rw [h]; rfl

theorem singleton_retry_spec_witness :
    get_aesthetic_scorer (.error (.modelUnavailable "no weights")) none =
      (.error (.modelUnavailable "no weights"), none) :=
  (singleton_retry_spec (.error (.modelUnavailable "no weights"))
    (.error (.modelUnavailable "no weights"))
    (fun _ _ => .error (.computationError "x"))
    (fun _ _ => .error (.computationError "x"))
    (.modelUnavailable "no weights")).1 rfl

/-- C2: failures propagate unchanged out of the scorer class (evaluate_image
never replaces a failure by a score, and a successful result is always the
genuine computation), while the 70.0 default is applied by the boundary wrapper
on any load or evaluation failure. -/
theorem error_propagation_spec (e : ScorerError) (path cat : String)
    (enc : Except ScorerError (List String → ℚ)) (scorer : Scorer)
    (sim : List String → ℚ) :
    evaluate_image_run (.error e) cat = .error e ∧
    evaluate_image_run (.ok sim) cat = .ok (evaluate_image sim cat) ∧
    (∀ r : EvalResult, evaluate_image_run enc cat = .ok r →
      ∃ sim0, enc = .ok sim0 ∧ r = evaluate_image sim0 cat) ∧
    calculate_aesthetic_score (.error e) none path cat = ((70, .failure e), none) ∧
    (scorer path cat = .error e →
      calculate_aesthetic_score (.ok scorer) none path cat =
        ((70, .failure e), some scorer)) := by
  refine ⟨rfl, rfl, fun r hr => ?_, rfl, fun h => ?_⟩
  · cases enc with
    | error e0 => exact absurd hr (by simp [evaluate_image_run])
    | ok sim0 => exact ⟨sim0, rfl, by simpa [evaluate_image_run] using hr.symm⟩
  · simp only [calculate_aesthetic_score, get_aesthetic_scorer, h]

theorem error_propagation_spec_witness :
    calculate_aesthetic_score
        (.ok (fun _ _ => .error (.imageDecodeError "corrupt"))) none "p.jpg" "other" =
      ((70, .failure (.imageDecodeError "corrupt")),
        some (fun _ _ => .error (.imageDecodeError "corrupt"))) :=
  (error_propagation_spec (.imageDecodeError "corrupt") "p.jpg" "other"
    (.error (.imageDecodeError "corrupt"))
    (fun _ _ => .error (.imageDecodeError "corrupt"))
    (fun _ => 0)).2.2.2.2 rfl

/-- C10: the score is not monotone across the quick threshold: every quick-path
score is at most 40, yet the concrete detailed-path image simGate (quick
similarity exactly 0.20, all other similarities 0) receives the clamped floor
30, strictly below the 38 earned by the quick-path image simWeak. -/
theorem non_monotone_across_threshold :
    (∀ (sim : List String → ℚ) (c : String), sim QUICK_PROMPTS < QUICK_THRESHOLD →
      (evaluate_image sim c).aesthetic_score ≤ 40) ∧
    QUICK_THRESHOLD ≤ simGate QUICK_PROMPTS ∧
    (evaluate_image simGate "other").aesthetic_score = 30 ∧
    simWeak QUICK_PROMPTS < QUICK_THRESHOLD ∧
    (evaluate_image simWeak "other").aesthetic_score = 38 ∧
    (evaluate_image simGate "other").aesthetic_score <
      (evaluate_image simWeak "other").aesthetic_score := by
  have hg : ¬ simGate QUICK_PROMPTS < QUICK_THRESHOLD := by
    rw [show simGate QUICK_PROMPTS = QUICK_THRESHOLD from rfl]
    exact lt_irrefl _
  have hwk : simWeak QUICK_PROMPTS < QUICK_THRESHOLD := by
    rw [show simWeak QUICK_PROMPTS = 19/100 from rfl]
    norm_num [QUICK_THRESHOLD]
  have hwr : weightedRaw simGate "other" = 1/25 := by
    rw [weightedRaw,
      show simGate QUICK_PROMPTS = 20/100 from rfl,
      show simGate ((DETAILED_PROMPTS.lookup "technical").getD []) = 0 from rfl,
      show simGate ((DETAILED_PROMPTS.lookup "composition").getD []) = 0 from rfl,
      show simGate ((DETAILED_PROMPTS.lookup "lighting").getD []) = 0 from rfl,
      show simGate ((CATEGORY_PROMPTS.lookup (categoryKey "other")).getD []) = 0 from rfl,
      show weight "universal" = 20/100 from rfl, show weight "technical" = 25/100 from rfl,
      show weight "composition" = 25/100 from rfl, show weight "lighting" = 15/100 from rfl,
      show weight "category" = 15/100 from rfl]
    norm_num
  have hsg : (evaluate_image simGate "other").aesthetic_score = 30 := by
    rw [evaluate_image_detailed_eq _ _ hg, hwr,
      show simGate NEGATIVE_PROMPTS = 0 from rfl]
    rw [show calibrate (1/25) = -20/7 by
        rw [calibrate, if_pos (by norm_num [avg_sim] : (1:ℚ)/25 < avg_sim)]
        norm_num [min_sim, avg_sim],
      show negativePenalty 0 = 0 by rw [negativePenalty, if_neg (by norm_num)]]
    norm_num [round1]
  have hsw : (evaluate_image simWeak "other").aesthetic_score = 38 := by
    rw [evaluate_image_quick_eq _ _ hwk,
      show simWeak QUICK_PROMPTS = 19/100 from rfl]
    norm_num [quickScaled]
  refine ⟨fun sim c h => ?_, not_lt.mp hg, hsg, hwk, hsw, by rw [hsg, hsw]; norm_num⟩
  rw [evaluate_image_quick_eq sim c h]
  exact (quickScaled_mem (sim QUICK_PROMPTS)).2

theorem non_monotone_across_threshold_witness :
    (evaluate_image simWeak "other").aesthetic_score ≤ 40 :=
  non_monotone_across_threshold.1 simWeak "other"
    (by rw [show simWeak QUICK_PROMPTS = 19/100 from rfl]; norm_num [QUICK_THRESHOLD])

/-- C7: the similarity of a nonzero image embedding against a nonempty matrix of
nonzero text rows is the mean over rows of the inner products of the
L2-normalized vectors, and it lies in [-1, 1]. -/
theorem similarity_bounds {n : ℕ} (img : EuclideanSpace ℝ (Fin n))
    (texts : List (EuclideanSpace ℝ (Fin n)))
    (himg : img ≠ 0) (htexts : ∀ t ∈ texts, t ≠ 0) (hne : texts ≠ []) :
    -1 ≤ calculate_similarity img texts ∧ calculate_similarity img texts ≤ 1 := by
  have hnorm_img : ‖l2normalize img‖ = 1 := norm_smul_inv_norm himg
  have hterm : ∀ t ∈ texts,
      |(inner (l2normalize img) (l2normalize t) : ℝ)| ≤ 1 := by
    intro t ht
    have hnt : ‖l2normalize t‖ = 1 := norm_smul_inv_norm (htexts t ht)
    calc |(inner (l2normalize img) (l2normalize t) : ℝ)|
        ≤ ‖l2normalize img‖ * ‖l2normalize t‖ := abs_real_inner_le_norm _ _
      _ = 1 := by rw [hnorm_img, hnt, mul_one]
  have hk : (0:ℝ) < (texts.length : ℝ) := by
    have := List.length_pos.mpr hne
    exact_mod_cast this
  set l := texts.map fun t => (inner (l2normalize img) (l2normalize t) : ℝ) with hl
  have hlen : l.length = texts.length := List.length_map _ _
  have hub : ∀ x ∈ l, x ≤ 1 := by
    intro x hx
    rcases List.mem_map.mp hx with ⟨t, ht, rfl⟩
    exact (abs_le.mp (hterm t ht)).2
  have hlb : ∀ x ∈ l, -1 ≤ x := by
    intro x hx
    rcases List.mem_map.mp hx with ⟨t, ht, rfl⟩
    exact (abs_le.mp (hterm t ht)).1
  have hsum_ub : l.sum ≤ (texts.length : ℝ) := by
    have := List.sum_le_card_nsmul l 1 hub
    rwa [hlen, nsmul_eq_mul, mul_one] at this
  have hsum_lb : -(texts.length : ℝ) ≤ l.sum := by
    have := List.card_nsmul_le_sum l (-1) hlb
    rwa [hlen, nsmul_eq_mul, mul_neg_one] at this
  constructor
  · rw [calculate_similarity, le_div_iff₀ hk]
    linarith
  · rw [calculate_similarity, div_le_one hk]
    exact hsum_ub

theorem similarity_bounds_witness :
    -1 ≤ calculate_similarity (EuclideanSpace.single (0 : Fin 1) (1:ℝ))
        [EuclideanSpace.single (0 : Fin 1) (1:ℝ)] ∧
      calculate_similarity (EuclideanSpace.single (0 : Fin 1) (1:ℝ))
        [EuclideanSpace.single (0 : Fin 1) (1:ℝ)] ≤ 1 := by
  have hne : EuclideanSpace.single (0 : Fin 1) (1:ℝ) ≠ 0 := by
    intro h
    have h2 : ‖EuclideanSpace.single (0 : Fin 1) (1:ℝ)‖ = 1 := by
      rw [EuclideanSpace.norm_single]; norm_num
    rw [h, norm_zero] at h2
    norm_num at h2
  exact similarity_bounds _ _ hne (by simpa using hne) (by simp)

end AestheticScorer
